import Mathlib

/-!
Verification of the beacon ingestion-to-storage pipeline (BeaconStorage in
src/services/beacon-storage.js and the lifecycle handlers in quick_start.js),
shallowly embedded in Lean 4.  Platform effects (uuid generation, clock,
ISO-date rendering, DynamoDB transport, JSON parsing) are modelled as
explicit parameters / outcome oracles; everything else is translated
line-for-line from the JavaScript source.
-/

/-- A JavaScript error value as inspected by the storage service: the code
reads `error.name`, `error.code` and `error.message`. -/
structure JsError where
  name : String
  code : Option String
  message : String
deriving DecidableEq, Repr

/-- The fixed list of retryable error categories in `_retryWithBackoff`. -/
def retryableErrors : List String :=
  ["ServiceUnavailable", "ProvisionedThroughputExceededException",
   "RequestTimeout", "NetworkingError"]

/-- `retryableErrors.some(errType => error.name === errType || error.code === errType)`. -/
def isRetryableError (e : JsError) : Bool :=
  retryableErrors.any (fun errType => e.name = errType || e.code = some errType)

/-- The typed outcome returned by the Backoff Executor:
`{ success: true, data }` or `{ success: false, error }`. -/
inductive RetryResult (α : Type) where
  | success (data : α)
  | failure (error : JsError)
deriving DecidableEq, Repr

/-- One invocation of the fallible operation is an `Except`; the whole
operation is an oracle giving the outcome of the attempt numbered `n`
(attempts are numbered from 1 as in the source loop). -/
def Operation (α : Type) : Type := Nat → Except JsError α

/-- The `for (let attempt = 1; attempt <= maxAttempts; attempt++)` loop of
`_retryWithBackoff`, unrolled on explicit fuel.  Returns the value the JS
function returns (`none` models the `undefined` of falling off the loop,
reachable only for `maxAttempts = 0`), the number of times the operation
was invoked, and the list of backoff delays slept, in milliseconds. -/
def retryFrom {α : Type} (op : Operation α) (maxAttempts : Nat) :
    Nat → Nat → Option (RetryResult α) × Nat × List Nat
  | _, 0 => (none, 0, [])
  | attempt, fuel + 1 =>
    if attempt > maxAttempts then (none, 0, [])
    else
      match op attempt with
      | .ok r => (some (.success r), 1, [])
      | .error e =>
        if ¬ isRetryableError e ∨ attempt = maxAttempts then
          (some (.failure e), 1, [])
        else
          let delay := 2 ^ (attempt - 1) * 1000
          let rest := retryFrom op maxAttempts (attempt + 1) fuel
          (rest.1, rest.2.1 + 1, delay :: rest.2.2)

/-- `_retryWithBackoff(operation, maxAttempts = 3)`. -/
def retryWithBackoff {α : Type} (op : Operation α) (maxAttempts : Nat := 3) :
    Option (RetryResult α) × Nat × List Nat :=
  retryFrom op maxAttempts 1 (maxAttempts + 1)

/-! ## Location parsing (`_parseLocation`) -/

/-- Digits, at least one. -/
def digits1 (l : List Char) : Bool :=
  l ≠ [] && l.all Char.isDigit

/-- An optionally signed run of digits, at least one (exponent body). -/
def jsSignedDigits : List Char → Bool
  | '+' :: rest => digits1 rest
  | '-' :: rest => digits1 rest
  | l => digits1 l

/-- Optional exponent part of a JS decimal literal: empty, or e/E then
signed digits. -/
def jsExpPart : List Char → Bool
  | [] => true
  | 'e' :: rest => jsSignedDigits rest
  | 'E' :: rest => jsSignedDigits rest
  | _ => false

/-- Unsigned decimal mantissa with optional fraction and exponent:
`Digits . Digits? Exp?`, `. Digits Exp?`, or `Digits Exp?`. -/
def jsMantissa (l : List Char) : Bool :=
  let d1 := l.takeWhile Char.isDigit
  let rest := l.drop d1.length
  match rest with
  | '.' :: rest2 =>
    let d2 := rest2.takeWhile Char.isDigit
    let rest3 := rest2.drop d2.length
    (d1 ≠ [] || d2 ≠ []) && jsExpPart rest3
  | _ => d1 ≠ [] && jsExpPart rest

/-- Unsigned decimal numeric string: `Infinity` or a mantissa. -/
def jsUnsignedDec (l : List Char) : Bool :=
  l = "Infinity".toList || jsMantissa l

/-- Signed decimal numeric string. -/
def jsStrDecimal : List Char → Bool
  | '+' :: rest => jsUnsignedDec rest
  | '-' :: rest => jsUnsignedDec rest
  | l => jsUnsignedDec l

/-- Non-decimal integer literal: 0x/0X hex, 0o/0O octal, 0b/0B binary. -/
def jsNonDecimal : List Char → Bool
  | '0' :: c :: rest =>
    if c = 'x' || c = 'X' then rest ≠ [] && rest.all (fun d => d.isDigit ||
      ('a' ≤ d && d ≤ 'f') || ('A' ≤ d && d ≤ 'F'))
    else if c = 'o' || c = 'O' then rest ≠ [] && rest.all (fun d => '0' ≤ d && d ≤ '7')
    else if c = 'b' || c = 'B' then rest ≠ [] && rest.all (fun d => d = '0' || d = '1')
    else false
  | _ => false

/-- JS `String.prototype.trim()` over the character list: strip
whitespace from both ends. -/
def jsTrim (s : String) : String :=
  ⟨((s.data.dropWhile Char.isWhitespace).reverse.dropWhile Char.isWhitespace).reverse⟩

/-- JS `String.prototype.split(sep)` for a single-character separator. -/
def splitOnChar (c : Char) : List Char → List (List Char)
  | [] => [[]]
  | a :: rest =>
    let r := splitOnChar c rest
    if a = c then [] :: r
    else
      match r with
      | [] => [[a]]
      | h :: t => (a :: h) :: t

/-- JS `!isNaN(s)` for a string `s`: ToNumber(s) is not NaN.  The empty
string (after trimming) converts to 0, so it counts as numeric. -/
def jsIsNumeric (s : String) : Bool :=
  let l := (jsTrim s).data
  l = [] || jsStrDecimal l || jsNonDecimal l

/-- Result of `_parseLocation`.  A successful `JSON.parse` yields an opaque
structured value, recorded here by its source text; the coordinate branch
keeps the two trimmed numeric strings it would pass to `parseFloat`. -/
inductive Location where
  | json (source : String)
  | coords (lat lng : String)
  | description (text : String)
deriving DecidableEq, Repr

/-- `_parseLocation(locationStr)`.  `jsonOk` is the oracle for whether
`JSON.parse(locationStr)` succeeds (its throw is caught by the source). -/
def parseLocation (jsonOk : String → Bool) (locationStr : String) : Location :=
  if jsonOk locationStr then .json locationStr
  else if locationStr.data.contains ',' then
    match (splitOnChar ',' locationStr.data).map (fun l => jsTrim ⟨l⟩) with
    | lat :: lng :: _ =>
      if jsIsNumeric lat && jsIsNumeric lng then .coords lat lng
      else .description locationStr
    | _ => .description locationStr
  else .description locationStr

/-! ## Advertisement, StorageRecord, buffer -/

/-- The iBeacon sub-object of a raw advertisement as read by the source:
`uuid`, `major`, `minor` always present on an iBeacon frame; `txPower`,
`distance`, `proximity` possibly absent. -/
structure IBeaconData where
  uuid : String
  major : Int
  minor : Int
  txPower : Option Int
  distance : Option Int
  proximity : Option String
deriving DecidableEq, Repr

/-- A raw advertisement event from the scanner, restricted to the fields
the storage service reads. -/
structure Advertisement where
  id : String
  rssi : Option Int
  address : Option String
  iBeacon : Option IBeaconData
deriving DecidableEq, Repr

/-- JS `x || null` for an optional number field: absent or 0 (falsy) maps
to null. -/
def jsOrNullInt : Option Int → Option Int
  | some n => if n = 0 then none else some n
  | none => none

/-- JS `x || null` for an optional string field: absent or `""` (falsy)
maps to null. -/
def jsOrNullStr : Option String → Option String
  | some s => if s = "" then none else some s
  | none => none

/-- `beaconKey`: uuid-major-minor when the advertisement carries an
iBeacon field, otherwise `unknown-` followed by the advertisement id. -/
def beaconKeyOf (ad : Advertisement) : String :=
  match ad.iBeacon with
  | some ib => ib.uuid ++ "-" ++ toString ib.major ++ "-" ++ toString ib.minor
  | none => "unknown-" ++ ad.id

/-- Static gateway identity attached to every record (set in the
constructor from config). -/
structure GatewayInfo where
  gatewayId : String
  gatewayName : String
  gatewayLocation : Option Location
deriving DecidableEq, Repr

/-- The record written to DynamoDB, field for field as assembled in
`storeBeaconRecord`. -/
structure StorageRecord where
  recordId : String
  timestamp : Nat
  detectedAt : String
  gatewayId : String
  gatewayName : String
  gatewayLocation : Option Location
  beaconKey : String
  uuid : Option String
  major : Option Int
  minor : Option Int
  rssi : Option Int
  txPower : Option Int
  distance : Option Int
  proximity : Option String
  address : Option String
  rawData : Advertisement
deriving DecidableEq, Repr

/-- The record-construction step of `storeBeaconRecord`: `recordId` (uuid),
`timestamp` (Date.now) and `detectedAt` (ISO rendering) come from the
platform and are passed in explicitly. -/
def buildRecord (gw : GatewayInfo) (recordId : String) (timestamp : Nat)
    (detectedAt : String) (ad : Advertisement) : StorageRecord :=
  { recordId := recordId
    timestamp := timestamp
    detectedAt := detectedAt
    gatewayId := gw.gatewayId
    gatewayName := gw.gatewayName
    gatewayLocation := gw.gatewayLocation
    beaconKey := beaconKeyOf ad
    uuid := jsOrNullStr (ad.iBeacon.map IBeaconData.uuid)
    major := jsOrNullInt (ad.iBeacon.map IBeaconData.major)
    minor := jsOrNullInt (ad.iBeacon.map IBeaconData.minor)
    rssi := jsOrNullInt ad.rssi
    txPower := jsOrNullInt (ad.iBeacon.bind IBeaconData.txPower)
    distance := jsOrNullInt (ad.iBeacon.bind IBeaconData.distance)
    proximity := jsOrNullStr (ad.iBeacon.bind IBeaconData.proximity)
    address := jsOrNullStr ad.address
    rawData := ad }

/-- Mutable state of a BeaconStorage instance. -/
structure StorageState where
  buffer : List StorageRecord
  maxBufferSize : Nat
  isFlushing : Bool
  droppedRecordCount : Nat
deriving DecidableEq, Repr

/-- Constructor state: empty buffer, capacity 100, no flush in progress,
no drops. -/
def freshStorage : StorageState :=
  { buffer := [], maxBufferSize := 100, isFlushing := false, droppedRecordCount := 0 }

/-- `getBufferSize()`. -/
def getBufferSize (st : StorageState) : Nat := st.buffer.length

/-- `_addToBuffer(record)`: at capacity, shift off index 0 and bump the
dropped counter, then push the record at the tail. -/
def addToBuffer (st : StorageState) (record : StorageRecord) : StorageState :=
  if st.buffer.length ≥ st.maxBufferSize then
    { st with buffer := st.buffer.tail ++ [record]
              droppedRecordCount := st.droppedRecordCount + 1 }
  else
    { st with buffer := st.buffer ++ [record] }

/-! ## storeBeaconRecord -/

/-- Environment behaviour of one `storeBeaconRecord` call: either an
unexpected exception is thrown somewhere in construction or transport
(landing in the outer catch), or construction completes and the DynamoDB
`send` inside the retry operation yields the given per-attempt outcomes. -/
inductive StoreStep where
  | throws (e : JsError)
  | transport (op : Operation Unit)

/-- `storeBeaconRecord(advertisement)`: build the record, attempt the write
through `_retryWithBackoff` (3 attempts); on success return the record id,
on failure push the record into the buffer and return null; any unexpected
exception is caught, logged, and the call returns null with the state
untouched. -/
def storeBeaconRecord (st : StorageState) (gw : GatewayInfo)
    (recordId : String) (timestamp : Nat) (detectedAt : String)
    (ad : Advertisement) (step : StoreStep) : Option String × StorageState :=
  match step with
  | .throws _ => (none, st)
  | .transport op =>
    let record := buildRecord gw recordId timestamp detectedAt ad
    match (retryWithBackoff op 3).1 with
    | some (.success _) => (some recordId, st)
    | _ => (none, addToBuffer st record)

/-! ## flushBuffer -/

/-- Environment behaviour of one buffered record's replay attempt inside
the flush loop: either an unexpected exception in the loop body, or the
per-attempt outcomes of the `send` inside the retry operation. -/
inductive FlushStep where
  | throws (e : JsError)
  | transport (op : Operation Unit)

/-- Whether the replay attempt for one record lands in the success branch
(`result.success` true): a throw or a failed retry result both count as
failure. -/
def flushStepSucceeds : FlushStep → Bool
  | .throws _ => false
  | .transport op =>
    match (retryWithBackoff op 3).1 with
    | some (.success _) => true
    | _ => false

/-- `this.buffer.findIndex(r => r.recordId === record.recordId)` followed by
`splice(index, 1)`: remove the first record with the given id, no-op when
absent. -/
def removeById : List StorageRecord → String → List StorageRecord
  | [], _ => []
  | r :: rs, rid => if r.recordId = rid then rs else r :: removeById rs rid

/-- The `for (const record of recordsToProcess)` loop of `flushBuffer`,
carrying `(successCount, failedCount, live buffer, attempted-record-id
trace)`.  On success the record is removed from the live buffer by id; on
failure (or unexpected throw) only `failedCount` is bumped. -/
def flushLoop (oracle : StorageRecord → FlushStep) :
    List StorageRecord → Nat × Nat × List StorageRecord × List String →
    Nat × Nat × List StorageRecord × List String
  | [], acc => acc
  | record :: rest, (s, f, buf, tr) =>
    if flushStepSucceeds (oracle record) then
      flushLoop oracle rest (s + 1, f, removeById buf record.recordId, tr ++ [record.recordId])
    else
      flushLoop oracle rest (s, f + 1, buf, tr ++ [record.recordId])

/-- The object `flushBuffer` resolves with: `{success, failed}` plus the
`skipped: true` / `empty: true` markers of the two early returns. -/
structure FlushResult where
  success : Nat
  failed : Nat
  skipped : Bool := false
  empty : Bool := false
deriving DecidableEq, Repr

/-- `flushBuffer()`: skip when a flush is already in progress; early return
on an empty buffer; otherwise snapshot the buffer (`[...this.buffer]`),
attempt each snapshotted record in order, and clear `isFlushing` at the
end.  Also returns the trace of record ids attempted, in order. -/
def flushBuffer (st : StorageState) (oracle : StorageRecord → FlushStep) :
    FlushResult × StorageState × List String :=
  if st.isFlushing then
    ({ success := 0, failed := 0, skipped := true }, st, [])
  else if st.buffer.length = 0 then
    ({ success := 0, failed := 0, empty := true }, st, [])
  else
    let recordsToProcess := st.buffer
    let r := flushLoop oracle recordsToProcess (0, 0, st.buffer, [])
    ({ success := r.1, failed := r.2.1 },
     { st with buffer := r.2.2.1, isFlushing := false }, r.2.2.2)

/-! ## Startup connectivity check -/

/-- The configuration fields validated at startup; a JS string field is
falsy when absent or empty. -/
structure AwsConfig where
  region : Option String
  tableName : Option String
  gatewayId : Option String
deriving DecidableEq, Repr

/-- JS truthiness of an optional string. -/
def jsTruthyStr : Option String → Bool
  | some s => s ≠ ""
  | none => false

/-- Outcome of the `DescribeTableCommand` round trip. -/
inductive DescribeOutcome where
  | ok (tableStatus : String)
  | err (e : JsError)
deriving DecidableEq, Repr

/-- The distinct raised-error kinds of the startup check, one per throw
site of the source. -/
inductive InitError where
  | missingRegion
  | missingTableName
  | missingGatewayId
  | tableNotFound (tableName : String)
  | invalidCredentials
  | credentialsNotFound
  | connectFailed (message : String)
deriving DecidableEq, Repr

/-- The catch block of the startup check: map the caught error's name to
the operator-facing sub-kind that is re-thrown. -/
def classifyInitError (e : JsError) (tableName : String) : InitError :=
  if e.name = "ResourceNotFoundException" then .tableNotFound tableName
  else if e.name = "UnrecognizedClientException" || e.name = "InvalidSignatureException" then
    .invalidCredentials
  else if e.name = "CredentialsProviderError" then .credentialsNotFound
  else .connectFailed ("Failed to connect to DynamoDB: " ++ e.message)

/-- The startup check of the storage service: validate region, table name
and gateway id, then describe the table; any describe failure is
re-classified and re-thrown; a table whose status is not ACTIVE triggers an
in-try `throw new Error(...)` (name `Error`) that the same catch block
re-wraps through its final else branch. -/
def initStorage (cfg : AwsConfig) (describe : DescribeOutcome) : Except InitError Unit :=
  if ¬ jsTruthyStr cfg.region then .error .missingRegion
  else if ¬ jsTruthyStr cfg.tableName then .error .missingTableName
  else if ¬ jsTruthyStr cfg.gatewayId then .error .missingGatewayId
  else
    match describe with
    | .err e => .error (classifyInitError e (cfg.tableName.getD ""))
    | .ok status =>
      if status ≠ "ACTIVE" then
        .error (classifyInitError
          ⟨"Error", none, "Table is not in ACTIVE state: " ++ status⟩
          (cfg.tableName.getD ""))
      else .ok ()

/-! ## Graceful shutdown (quick_start.js) -/

/-- The externally observable steps of the shutdown handler, in order. -/
inductive ShutdownAction where
  | flushCall (result : FlushResult)
  | stopScanner
deriving DecidableEq, Repr

/-- The `shutdown(signal)` handler of quick_start.js: when
`getBufferSize() > 0`, call `flushBuffer()` and log its counts (flush
errors are caught and logged, not fatal); afterwards stop the beacon
scanner; exit 0 regardless of the flush outcome. -/
def shutdownSeq (st : StorageState) (oracle : StorageRecord → FlushStep) :
    List ShutdownAction × StorageState :=
  if getBufferSize st > 0 then
    let r := flushBuffer st oracle
    ([.flushCall r.1, .stopScanner], r.2.1)
  else
    ([.stopScanner], st)

/-! ## Concrete scenario material -/

/-- A concrete advertisement used in scenario instantiations. -/
def mkAd (i : Nat) : Advertisement :=
  { id := toString i, rssi := some (-60), address := none, iBeacon := none }

/-- A concrete record used in scenario instantiations, with distinct
record ids and timestamps. -/
def mkRec (i : Nat) : StorageRecord :=
  buildRecord ⟨"gw-1", "gw", none⟩ (toString i) i "iso" (mkAd i)

/-- A capacity-1 state holding one record, used to witness eviction. -/
def tinyStorage : StorageState :=
  { freshStorage with maxBufferSize := 1, buffer := [mkRec 0] }

/-- A state with one buffered record. -/
def oneRecStorage : StorageState :=
  { freshStorage with buffer := [mkRec 0] }

/-- A state with three buffered records (Scenario C). -/
def scenCStorage : StorageState :=
  { freshStorage with buffer := [mkRec 0, mkRec 1, mkRec 2] }

/-- Replay oracle for Scenario C: the record with id "1" fails permanently
with a non-retryable error, the others succeed. -/
def oracleC : StorageRecord → FlushStep := fun r =>
  if r.recordId = "1" then
    .transport (fun _ => .error ⟨"ValidationException", none, "bad"⟩)
  else .transport (fun _ => .ok ())

/-- Replay oracle where every write succeeds at once. -/
def oracleOk : StorageRecord → FlushStep := fun _ => .transport (fun _ => .ok ())

/-- Replay oracle where every write fails with a non-retryable error. -/
def oracleFail : StorageRecord → FlushStep :=
  fun _ => .transport (fun _ => .error ⟨"ValidationException", none, "bad"⟩)

/-! ## Helper lemmas -/

theorem addToBuffer_length_le (st : StorageState) (r : StorageRecord)
    (hcap : 0 < st.maxBufferSize) (hle : st.buffer.length ≤ st.maxBufferSize) :
    (addToBuffer st r).buffer.length ≤ st.maxBufferSize := by
  unfold addToBuffer
  by_cases h : st.buffer.length ≥ st.maxBufferSize
  · simp only [h, if_pos, List.length_append, List.length_cons, List.length_tail,
      List.length_nil]
    omega
  · simp only [h, if_neg, not_false_iff, List.length_append, List.length_cons,
      List.length_nil]
    omega

/-! ## Claim theorems -/

set_option maxRecDepth 4000

/-- C2: for all sequences of pushes the Replay Buffer never exceeds its
capacity; a push at capacity removes exactly the oldest element (index 0)
and increments the lifetime dropped-count by one before appending the new
record at the tail; and pushing 101 records into a fresh capacity-100
buffer leaves size 100, the 2nd pushed record surviving at the front, and
dropped-count 1. -/
theorem C2_buffer_bound (st : StorageState) (r : StorageRecord) :
    (0 < st.maxBufferSize → st.buffer.length ≤ st.maxBufferSize →
      (addToBuffer st r).buffer.length ≤ st.maxBufferSize) ∧
    (st.buffer.length = st.maxBufferSize →
      addToBuffer st r =
        { st with buffer := st.buffer.tail ++ [r],
                  droppedRecordCount := st.droppedRecordCount + 1 }) ∧
    (((List.range 101).map mkRec).foldl addToBuffer freshStorage).buffer.length = 100 ∧
    (((List.range 101).map mkRec).foldl addToBuffer freshStorage).buffer.head?
      = some (mkRec 1) ∧
    (((List.range 101).map mkRec).foldl addToBuffer freshStorage).droppedRecordCount = 1 := by
  refine ⟨fun hc hl => addToBuffer_length_le st r hc hl, fun h => ?_, by decide, by decide,
    by decide⟩
  unfold addToBuffer
  rw [if_pos (by omega)]

/-- Witness for C2 at concrete inputs: a capacity-1 buffer holding one
record, pushed again, evicts the old record and counts one drop. -/
theorem C2_buffer_bound_witness :
    (0 < freshStorage.maxBufferSize ∧ freshStorage.buffer.length ≤ freshStorage.maxBufferSize ∧
      (addToBuffer freshStorage (mkRec 0)).buffer.length ≤ freshStorage.maxBufferSize) ∧
    (tinyStorage.buffer.length = tinyStorage.maxBufferSize ∧
      addToBuffer tinyStorage (mkRec 1)
        = { tinyStorage with buffer := [mkRec 1], droppedRecordCount := 1 }) := by
  constructor
  · exact ⟨by decide, by decide,
      (C2_buffer_bound freshStorage (mkRec 0)).1 (by decide) (by decide)⟩
  · refine ⟨by decide, ?_⟩
    have h := (C2_buffer_bound tinyStorage (mkRec 1)).2.1 (by decide)
    rw [h]
    decide

/-- C3: the Backoff Executor retries a retryable error after a delay of
2^(attempt-1) seconds while attempts remain; an operation failing the
first 2 attempts with retryable errors then succeeding is invoked exactly
3 times with waits of 1000 ms and 2000 ms and yields success; an operation
always failing with a non-retryable error is invoked exactly once and
yields a failure carrying that error, without raising; and an operation
that fails every one of the 3 attempts with retryable errors exhausts its
attempts after exactly 3 invocations and 2 waits and yields a failure
outcome carrying the last (3rd) error, without raising. -/
theorem C3_retry_backoff (e1 e2 e : JsError) (x : Nat)
    (h1 : isRetryableError e1 = true) (h2 : isRetryableError e2 = true)
    (h : isRetryableError e = false) :
    retryWithBackoff (α := Nat)
        (fun a => if a = 1 then .error e1 else if a = 2 then .error e2 else .ok x) 3
      = (some (.success x), 3, [1000, 2000]) ∧
    retryWithBackoff (α := Nat) (fun _ => .error e) 3 = (some (.failure e), 1, []) ∧
    (∀ {α : Type} (op : Operation α) (maxA attempt fuel : Nat) (e' : JsError),
      attempt ≤ maxA → attempt ≠ maxA →
      op attempt = .error e' → isRetryableError e' = true →
      retryFrom op maxA attempt (fuel + 1)
        = ((retryFrom op maxA (attempt + 1) fuel).1,
           (retryFrom op maxA (attempt + 1) fuel).2.1 + 1,
           2 ^ (attempt - 1) * 1000 :: (retryFrom op maxA (attempt + 1) fuel).2.2)) ∧
    (∀ err : Nat → JsError, (∀ a, isRetryableError (err a) = true) →
      retryWithBackoff (α := Nat) (fun a => .error (err a)) 3
        = (some (.failure (err 3)), 3, [1000, 2000])) := by
  refine ⟨?_, ?_, ?_, ?_⟩
  · simp [retryWithBackoff, retryFrom, h1, h2]
  · simp [retryWithBackoff, retryFrom, h]
  · intro α op maxA attempt fuel e' hle hne hop hr
    rw [retryFrom, if_neg (by omega), hop]
    simp [hr, hne]
  · intro err herr
    simp [retryWithBackoff, retryFrom, herr 1, herr 2, herr 3]

/-- Witness for C3 at concrete inputs: ServiceUnavailable twice then
success, a ValidationException failing immediately, and a RequestTimeout
on every attempt exhausting the 3 attempts with a failure carrying the
last error. -/
theorem C3_retry_backoff_witness :
    retryWithBackoff (α := Nat)
        (fun a => if a = 1 then .error ⟨"ServiceUnavailable", none, "down"⟩
          else if a = 2 then .error ⟨"ServiceUnavailable", none, "down"⟩ else .ok 7) 3
      = (some (.success 7), 3, [1000, 2000]) ∧
    retryWithBackoff (α := Nat) (fun _ => .error ⟨"ValidationException", none, "bad"⟩) 3
      = (some (.failure ⟨"ValidationException", none, "bad"⟩), 1, []) ∧
    retryWithBackoff (α := Nat)
        (fun a => .error ⟨"RequestTimeout", none, "t" ++ toString a⟩) 3
      = (some (.failure ⟨"RequestTimeout", none, "t3"⟩), 3, [1000, 2000]) :=
  ⟨(C3_retry_backoff ⟨"ServiceUnavailable", none, "down"⟩ ⟨"ServiceUnavailable", none, "down"⟩
      ⟨"ValidationException", none, "bad"⟩ 7 (by decide) (by decide) (by decide)).1,
   (C3_retry_backoff ⟨"ServiceUnavailable", none, "down"⟩ ⟨"ServiceUnavailable", none, "down"⟩
      ⟨"ValidationException", none, "bad"⟩ 7 (by decide) (by decide) (by decide)).2.1,
   (C3_retry_backoff ⟨"ServiceUnavailable", none, "down"⟩ ⟨"ServiceUnavailable", none, "down"⟩
      ⟨"ValidationException", none, "bad"⟩ 7 (by decide) (by decide) (by decide)).2.2.2
     (fun a => ⟨"RequestTimeout", none, "t" ++ toString a⟩) (fun a => rfl)⟩

theorem removeById_append_notin (kept : List StorageRecord) (r : StorageRecord)
    (rest : List StorageRecord)
    (h : r.recordId ∉ kept.map StorageRecord.recordId) :
    removeById (kept ++ r :: rest) r.recordId = kept ++ rest := by
  induction kept with
  | nil => simp [removeById]
  | cons a tl ih =>
    simp only [List.map_cons, List.mem_cons] at h
    push_neg at h
    simp only [List.cons_append, removeById]
    rw [if_neg (fun heq => h.1 heq.symm)]
    simp only [List.append_eq]
    rw [ih h.2]

theorem flushLoop_spec (oracle : StorageRecord → FlushStep) (l : List StorageRecord) :
    ∀ (kept : List StorageRecord) (s f : Nat) (tr : List String),
    (∀ r ∈ l, r.recordId ∉ kept.map StorageRecord.recordId) →
    (l.map StorageRecord.recordId).Nodup →
    flushLoop oracle l (s, f, kept ++ l, tr)
      = (s + (l.filter (fun r => flushStepSucceeds (oracle r))).length,
         f + (l.filter (fun r => ! flushStepSucceeds (oracle r))).length,
         kept ++ l.filter (fun r => ! flushStepSucceeds (oracle r)),
         tr ++ l.map StorageRecord.recordId) := by
  induction l with
  | nil =>
    intro kept s f tr _ _
    simp [flushLoop]
  | cons r rest ih =>
    intro kept s f tr hnotin hnodup
    simp only [List.map_cons, List.nodup_cons] at hnodup
    by_cases hs : flushStepSucceeds (oracle r) = true
    · simp only [flushLoop, hs, if_pos]
      rw [removeById_append_notin kept r rest (hnotin r (by simp))]
      rw [ih kept (s + 1) f (tr ++ [r.recordId])
        (fun r' hr' => hnotin r' (by simp [hr'])) hnodup.2]
      simp only [List.filter_cons, hs, Bool.not_true, Prod.mk.injEq]
      refine ⟨by simp; omega, by simp, by simp, by simp⟩
    · simp only [flushLoop, hs, if_neg, Bool.false_eq_true, not_false_iff]
      have hrw : kept ++ r :: rest = (kept ++ [r]) ++ rest := by simp
      rw [hrw, ih (kept ++ [r]) s (f + 1) (tr ++ [r.recordId]) ?_ hnodup.2]
      · simp only [List.filter_cons, hs, Prod.mk.injEq]
        refine ⟨by simp, by simp; omega, by simp, by simp⟩
      · intro r' hr'
        simp only [List.map_append, List.map_cons, List.map_nil, List.mem_append,
          List.mem_cons, List.not_mem_nil, or_false]
        push_neg
        refine ⟨fun hmem => hnotin r' (by simp [hr']) hmem, ?_⟩
        intro heq
        exact hnodup.1 (heq ▸ List.mem_map_of_mem StorageRecord.recordId hr')

/-- C4: a flush on a quiescent, non-empty buffer with distinct record ids
attempts exactly the point-in-time snapshot in insertion order (the
attempted-id trace is the buffer's id sequence, oldest first), removes by
record id exactly the records whose write succeeded (a failed record stays
buffered and counts toward failedCount), and in Scenario C (3 buffered
records, the 2nd failing permanently) yields success 2, failed 1, with
only the failed record left in the buffer. -/
theorem C4_flush_fifo (st : StorageState) (oracle : StorageRecord → FlushStep)
    (hf : st.isFlushing = false) (hne : st.buffer ≠ [])
    (hnodup : (st.buffer.map StorageRecord.recordId).Nodup) :
    flushBuffer st oracle
      = ({ success := (st.buffer.filter (fun r => flushStepSucceeds (oracle r))).length,
           failed := (st.buffer.filter (fun r => ! flushStepSucceeds (oracle r))).length },
         { st with buffer := st.buffer.filter (fun r => ! flushStepSucceeds (oracle r)),
                   isFlushing := false },
         st.buffer.map StorageRecord.recordId) ∧
    flushBuffer scenCStorage oracleC
      = ({ success := 2, failed := 1 },
         { scenCStorage with buffer := [mkRec 1] }, ["0", "1", "2"]) := by
  constructor
  · have hlen : ¬ st.buffer.length = 0 := by
      simpa [List.length_eq_zero] using hne
    have h := flushLoop_spec oracle st.buffer [] 0 0 [] (by simp) hnodup
    simp only [List.nil_append] at h
    simp [flushBuffer, hf, hlen, h]
  · decide

/-- Witness for C4: Scenario C instantiates the general statement. -/
theorem C4_flush_fifo_witness :
    flushBuffer scenCStorage oracleC
      = ({ success := 2, failed := 1 },
         { scenCStorage with buffer := [mkRec 1] }, ["0", "1", "2"]) := by
  have h := (C4_flush_fifo scenCStorage oracleC (by decide) (by decide) (by decide)).1
  rw [h]
  decide

/-- C5: a flush invoked while one is in progress returns the skipped
result with zero counts, leaves the state untouched and attempts nothing;
a flush on an empty buffer returns zero counts (with the empty marker),
leaves the state untouched and attempts nothing. -/
theorem C5_flush_mutex (st : StorageState) (oracle : StorageRecord → FlushStep) :
    (st.isFlushing = true →
      flushBuffer st oracle = ({ success := 0, failed := 0, skipped := true }, st, [])) ∧
    (st.isFlushing = false → st.buffer = [] →
      flushBuffer st oracle = ({ success := 0, failed := 0, empty := true }, st, [])) := by
  constructor
  · intro h
    simp [flushBuffer, h]
  · intro h hb
    simp [flushBuffer, h, hb]

/-- Witness for C5: a state mid-flush is skipped; the fresh empty state
returns zero counts. -/
theorem C5_flush_mutex_witness :
    flushBuffer { freshStorage with isFlushing := true, buffer := [mkRec 0] } oracleOk
      = ({ success := 0, failed := 0, skipped := true },
         { freshStorage with isFlushing := true, buffer := [mkRec 0] }, []) ∧
    flushBuffer freshStorage oracleOk
      = ({ success := 0, failed := 0, empty := true }, freshStorage, []) :=
  ⟨(C5_flush_mutex { freshStorage with isFlushing := true, buffer := [mkRec 0] }
      oracleOk).1 (by decide),
   (C5_flush_mutex freshStorage oracleOk).2 (by decide) (by decide)⟩

theorem mem_addToBuffer (st : StorageState) (r : StorageRecord) :
    r ∈ (addToBuffer st r).buffer := by
  unfold addToBuffer
  split <;> simp

/-- C1 counterexample: an unexpected exception inside `storeBeaconRecord`
is caught and the call returns null, but the record is NOT pushed into the
Replay Buffer — the state is untouched, so the event is neither written,
nor buffered, nor counted as dropped. -/
theorem C1_counterexample :
    storeBeaconRecord freshStorage ⟨"gw-1", "gw", none⟩ "rid-1" 0 "iso" (mkAd 0)
        (.throws ⟨"TypeError", none, "boom"⟩)
      = (none, freshStorage) ∧
    freshStorage.buffer = [] ∧ freshStorage.droppedRecordCount = 0 :=
  ⟨rfl, rfl, rfl⟩

/-- C1 amended: an unexpected exception inside `storeBeaconRecord` is
caught at the Storage Sink boundary and the call returns null without
raising, but with the state untouched (no buffering, no dropped-count
change); only a call that reaches the transport path is accounted for:
it either returns the fresh record id on success with the state untouched,
or pushes the constructed record into the Replay Buffer and returns null. -/
theorem C1_store_boundary (st : StorageState) (gw : GatewayInfo) (recordId : String)
    (timestamp : Nat) (detectedAt : String) (ad : Advertisement) :
    (∀ e, storeBeaconRecord st gw recordId timestamp detectedAt ad (.throws e) = (none, st)) ∧
    (∀ op : Operation Unit,
      storeBeaconRecord st gw recordId timestamp detectedAt ad (.transport op)
          = (some recordId, st) ∨
      (storeBeaconRecord st gw recordId timestamp detectedAt ad (.transport op)
          = (none, addToBuffer st (buildRecord gw recordId timestamp detectedAt ad)) ∧
        buildRecord gw recordId timestamp detectedAt ad
          ∈ (storeBeaconRecord st gw recordId timestamp detectedAt ad
              (.transport op)).2.buffer)) := by
  constructor
  · intro e
    rfl
  · intro op
    unfold storeBeaconRecord
    cases h : (retryWithBackoff op 3).1 with
    | none =>
      right
      exact ⟨by simp [h], by simp [h, mem_addToBuffer]⟩
    | some r =>
      cases r with
      | success d => left; simp [h]
      | failure e =>
        right
        exact ⟨by simp [h], by simp [h, mem_addToBuffer]⟩

/-- Witness for C1's amended statement at concrete inputs. -/
theorem C1_store_boundary_witness :
    storeBeaconRecord freshStorage ⟨"gw-1", "gw", none⟩ "rid-1" 0 "iso" (mkAd 0)
        (.throws ⟨"RangeError", none, "oops"⟩) = (none, freshStorage) :=
  (C1_store_boundary freshStorage ⟨"gw-1", "gw", none⟩ "rid-1" 0 "iso" (mkAd 0)).1
    ⟨"RangeError", none, "oops"⟩

/-- C6 counterexample: in the shutdown handler of quick_start.js the flush
happens FIRST and the scanner is stopped afterwards — with one buffered
record the action trace starts with the flush call, so the scanner-stop
step does not precede the flush step. -/
theorem C6_counterexample :
    shutdownSeq oneRecStorage oracleOk
      = ([.flushCall { success := 1, failed := 0 }, .stopScanner], freshStorage) ∧
    (shutdownSeq oneRecStorage oracleOk).1.head?
      = some (.flushCall { success := 1, failed := 0 }) := by
  constructor <;> decide

/-- C6 amended: on a termination signal the handler first calls `flush()`
when `getBufferSize() > 0` and logs the returned counts, and only then
stops the external scanner; with an empty buffer it skips the flush; in
every case the trace ends with the scanner-stop step, regardless of the
flush outcome (flush failures are logged, not fatal). -/
theorem C6_shutdown_order (st : StorageState) (oracle : StorageRecord → FlushStep) :
    (getBufferSize st > 0 →
      shutdownSeq st oracle
        = ([.flushCall (flushBuffer st oracle).1, .stopScanner],
           (flushBuffer st oracle).2.1)) ∧
    (getBufferSize st = 0 → shutdownSeq st oracle = ([.stopScanner], st)) ∧
    (∃ pre, (shutdownSeq st oracle).1 = pre ++ [ShutdownAction.stopScanner]) := by
  refine ⟨fun h => ?_, fun h => ?_, ?_⟩
  · simp [shutdownSeq, h]
  · simp [shutdownSeq, h]
  · by_cases h : getBufferSize st > 0
    · exact ⟨[.flushCall (flushBuffer st oracle).1], by simp [shutdownSeq, h]⟩
    · exact ⟨[], by simp [shutdownSeq, h]⟩

/-- Witness for C6's amended statement: one buffered record whose replay
fails (shutdown proceeds regardless), and the empty-buffer case. -/
theorem C6_shutdown_order_witness :
    shutdownSeq oneRecStorage oracleFail
      = ([.flushCall (flushBuffer oneRecStorage oracleFail).1, .stopScanner],
         (flushBuffer oneRecStorage oracleFail).2.1) ∧
    shutdownSeq freshStorage oracleOk = ([.stopScanner], freshStorage) :=
  ⟨(C6_shutdown_order oneRecStorage oracleFail).1 (by decide),
   (C6_shutdown_order freshStorage oracleOk).2.1 (by decide)⟩

/-- C7: the startup check succeeds exactly when region, table name and
gateway id are all present (truthy) and the describe round trip reports an
ACTIVE table; every other case raises, with the connectivity sub-kinds
(table not found, invalid credentials, credentials not found, generic
connect failure) distinguished from the caught error's name; the write
path, by contrast, absorbs even unexpected exceptions instead of raising. -/
theorem C7_init_fails_fast (cfg : AwsConfig) (describe : DescribeOutcome) :
    (initStorage cfg describe = .ok () ↔
      (jsTruthyStr cfg.region = true ∧ jsTruthyStr cfg.tableName = true ∧
       jsTruthyStr cfg.gatewayId = true ∧ describe = .ok "ACTIVE")) ∧
    (∀ m t c, classifyInitError ⟨"ResourceNotFoundException", c, m⟩ t = .tableNotFound t) ∧
    (∀ m t c, classifyInitError ⟨"UnrecognizedClientException", c, m⟩ t = .invalidCredentials) ∧
    (∀ m t c, classifyInitError ⟨"InvalidSignatureException", c, m⟩ t = .invalidCredentials) ∧
    (∀ m t c, classifyInitError ⟨"CredentialsProviderError", c, m⟩ t = .credentialsNotFound) ∧
    (∀ e, jsTruthyStr cfg.region = true → jsTruthyStr cfg.tableName = true →
      jsTruthyStr cfg.gatewayId = true →
      initStorage cfg (.err e) = .error (classifyInitError e (cfg.tableName.getD ""))) ∧
    (∀ (st : StorageState) (gw : GatewayInfo) (rid : String) (ts : Nat) (da : String)
        (ad : Advertisement) (e : JsError),
      storeBeaconRecord st gw rid ts da ad (.throws e) = (none, st)) := by
  refine ⟨?_, fun m t c => rfl, fun m t c => rfl, fun m t c => rfl, fun m t c => rfl,
    fun e h1 h2 h3 => by simp [initStorage, h1, h2, h3], fun st gw rid ts da ad e => rfl⟩
  unfold initStorage
  by_cases h1 : jsTruthyStr cfg.region = true
  · by_cases h2 : jsTruthyStr cfg.tableName = true
    · by_cases h3 : jsTruthyStr cfg.gatewayId = true
      · simp only [h1, h2, h3, not_true, if_neg, not_false_iff, true_and]
        cases describe with
        | err e => simp
        | ok status =>
          by_cases hst : status = "ACTIVE"
          · subst hst; simp
          · simp [hst]
      · simp [h1, h2, h3]
    · simp [h1, h2]
  · simp [h1]

/-- Witness for C7: a complete configuration with an ACTIVE table
initializes; the same configuration with a ResourceNotFoundException from
describe raises the table-not-found sub-kind. -/
theorem C7_init_fails_fast_witness :
    initStorage ⟨some "us-east-1", some "tbl", some "gw-1"⟩ (.ok "ACTIVE") = .ok () ∧
    initStorage ⟨some "us-east-1", some "tbl", some "gw-1"⟩
        (.err ⟨"ResourceNotFoundException", none, "nf"⟩)
      = .error (.tableNotFound "tbl") := by
  constructor
  · exact (C7_init_fails_fast ⟨some "us-east-1", some "tbl", some "gw-1"⟩
      (.ok "ACTIVE")).1.mpr ⟨by decide, by decide, by decide, rfl⟩
  · have h := (C7_init_fails_fast ⟨some "us-east-1", some "tbl", some "gw-1"⟩
      (.err ⟨"ResourceNotFoundException", none, "nf"⟩)).2.2.2.2.2.1
      ⟨"ResourceNotFoundException", none, "nf"⟩ (by decide) (by decide) (by decide)
    rw [h]
    rfl

/-- C8: the derived `beaconKey` of a stored record is
uuid-major-minor when the event carries an iBeacon field, and
`unknown-` followed by the event's id otherwise. -/
theorem C8_beacon_key (gw : GatewayInfo) (rid : String) (ts : Nat) (da : String)
    (ad : Advertisement) :
    (∀ ib, ad.iBeacon = some ib →
      (buildRecord gw rid ts da ad).beaconKey
        = ib.uuid ++ "-" ++ toString ib.major ++ "-" ++ toString ib.minor) ∧
    (ad.iBeacon = none →
      (buildRecord gw rid ts da ad).beaconKey = "unknown-" ++ ad.id) := by
  constructor
  · intro ib h
    simp [buildRecord, beaconKeyOf, h]
  · intro h
    simp [buildRecord, beaconKeyOf, h]

/-- Witness for C8: an iBeacon event keys as uuid-major-minor; a
non-iBeacon event keys as unknown-id. -/
theorem C8_beacon_key_witness :
    (buildRecord ⟨"gw-1", "gw", none⟩ "r" 0 "iso"
        ⟨"dev", none, none, some ⟨"u", 2, 3, none, none, none⟩⟩).beaconKey = "u-2-3" ∧
    (buildRecord ⟨"gw-1", "gw", none⟩ "r" 0 "iso" (mkAd 0)).beaconKey = "unknown-0" := by
  constructor
  · have h := (C8_beacon_key ⟨"gw-1", "gw", none⟩ "r" 0 "iso"
      ⟨"dev", none, none, some ⟨"u", 2, 3, none, none, none⟩⟩).1
      ⟨"u", 2, 3, none, none, none⟩ rfl
    rw [h]
    decide
  · have h := (C8_beacon_key ⟨"gw-1", "gw", none⟩ "r" 0 "iso" (mkAd 0)).2 rfl
    rw [h]
    decide

/-- C9: the location parser is total and tries its attempts in fixed
order — a successful JSON parse wins; otherwise, when the input contains a
comma and both trimmed halves pass the JS numeric check, it produces the
coordinate pair; in every other case it terminates in the opaque-text
description fallback; for every input the result is one of these three
shapes, so the parser never raises. -/
theorem C9_parse_location (jsonOk : String → Bool) (s : String) :
    (jsonOk s = true → parseLocation jsonOk s = .json s) ∧
    (jsonOk s = false → s.data.contains ',' = false →
      parseLocation jsonOk s = .description s) ∧
    (jsonOk s = false → s.data.contains ',' = true →
      ∀ lat lng rest,
        (splitOnChar ',' s.data).map (fun l => jsTrim ⟨l⟩) = lat :: lng :: rest →
        ((jsIsNumeric lat && jsIsNumeric lng) = true →
          parseLocation jsonOk s = .coords lat lng) ∧
        ((jsIsNumeric lat && jsIsNumeric lng) = false →
          parseLocation jsonOk s = .description s)) ∧
    ((∃ t, parseLocation jsonOk s = .json t) ∨
     (∃ a b, parseLocation jsonOk s = .coords a b) ∨
     (∃ t, parseLocation jsonOk s = .description t)) := by
  refine ⟨fun h => by simp [parseLocation, h],
    fun h hc => by
      have hc' : ',' ∉ s.data := by simpa using hc
      simp [parseLocation, h, hc'],
    fun h hc lat lng rest hsplit => ?_, ?_⟩
  · have hc' : ',' ∈ s.data := by simpa using hc
    constructor <;> intro hnum <;> simp [parseLocation, h, hc', hsplit, hnum]
  · by_cases h1 : jsonOk s = true
    · exact .inl ⟨s, by simp [parseLocation, h1]⟩
    · have h1' : jsonOk s = false := by simpa using h1
      by_cases h2 : (',' ∈ s.data)
      · cases hm : (splitOnChar ',' s.data).map (fun l => jsTrim ⟨l⟩) with
        | nil => exact .inr (.inr ⟨s, by simp [parseLocation, h1', h2, hm]⟩)
        | cons a tl =>
          cases tl with
          | nil => exact .inr (.inr ⟨s, by simp [parseLocation, h1', h2, hm]⟩)
          | cons b tl2 =>
            by_cases h3 : (jsIsNumeric a && jsIsNumeric b) = true
            · exact .inr (.inl ⟨a, b, by simp [parseLocation, h1', h2, hm, h3]⟩)
            · exact .inr (.inr ⟨s, by simp [parseLocation, h1', h2, hm, h3]⟩)
      · exact .inr (.inr ⟨s, by simp [parseLocation, h1', h2]⟩)

/-- Witness for C9: a numeric coordinate pair, an opaque room label, and a
JSON-parsable input. -/
theorem C9_parse_location_witness :
    parseLocation (fun _ => false) "12.5, -7" = .coords "12.5" "-7" ∧
    parseLocation (fun _ => false) "room:Building A" = .description "room:Building A" ∧
    parseLocation (fun _ => true) "x" = .json "x" :=
  ⟨((C9_parse_location (fun _ => false) "12.5, -7").2.2.1 rfl (by decide)
      "12.5" "-7" [] (by decide)).1 (by decide),
   (C9_parse_location (fun _ => false) "room:Building A").2.1 rfl (by decide),
   (C9_parse_location (fun _ => true) "x").1 rfl⟩

/-- C10: every optional numeric attribute of the stored record (rssi,
major, minor, txPower, distance) is filled with the JS falsy-coalescing
`x || null`, so a missing attribute maps to null and an attribute whose
value is the number 0 is also stored as null rather than 0; a nonzero
present value is stored unchanged. -/
theorem C10_falsy_coalescing (gw : GatewayInfo) (rid : String) (ts : Nat)
    (da : String) (ad : Advertisement) :
    ((buildRecord gw rid ts da ad).rssi = none ↔
      ad.rssi = none ∨ ad.rssi = some 0) ∧
    (∀ v : Int, ad.rssi = some v → v ≠ 0 →
      (buildRecord gw rid ts da ad).rssi = some v) ∧
    (∀ ib, ad.iBeacon = some ib →
      (((buildRecord gw rid ts da ad).major = none ↔ ib.major = 0) ∧
       ((buildRecord gw rid ts da ad).minor = none ↔ ib.minor = 0) ∧
       ((buildRecord gw rid ts da ad).txPower = none ↔
         ib.txPower = none ∨ ib.txPower = some 0) ∧
       ((buildRecord gw rid ts da ad).distance = none ↔
         ib.distance = none ∨ ib.distance = some 0))) ∧
    (ad.iBeacon = none →
      (buildRecord gw rid ts da ad).major = none ∧
      (buildRecord gw rid ts da ad).minor = none ∧
      (buildRecord gw rid ts da ad).txPower = none ∧
      (buildRecord gw rid ts da ad).distance = none) := by
  refine ⟨?_, fun v hv hnz => ?_, fun ib hib => ?_, fun hib => ?_⟩
  · cases h : ad.rssi with
    | none => simp [buildRecord, jsOrNullInt, h]
    | some n =>
      by_cases hn : n = 0 <;> simp [buildRecord, jsOrNullInt, h, hn]
  · simp [buildRecord, jsOrNullInt, hv, hnz]
  · refine ⟨?_, ?_, ?_, ?_⟩
    · by_cases hn : ib.major = 0 <;> simp [buildRecord, jsOrNullInt, hib, hn]
    · by_cases hn : ib.minor = 0 <;> simp [buildRecord, jsOrNullInt, hib, hn]
    · cases h : ib.txPower with
      | none => simp [buildRecord, jsOrNullInt, hib, h]
      | some n => by_cases hn : n = 0 <;> simp [buildRecord, jsOrNullInt, hib, h, hn]
    · cases h : ib.distance with
      | none => simp [buildRecord, jsOrNullInt, hib, h]
      | some n => by_cases hn : n = 0 <;> simp [buildRecord, jsOrNullInt, hib, h, hn]
  · simp [buildRecord, jsOrNullInt, hib]

/-- Witness for C10: an advertisement with rssi 0 and txPower 0 stores
null for both; a nonzero rssi is stored unchanged. -/
theorem C10_falsy_coalescing_witness :
    (buildRecord ⟨"gw-1", "gw", none⟩ "r" 0 "iso"
        ⟨"dev", some 0, none, some ⟨"u", 1, 0, some 0, none, none⟩⟩).rssi = none ∧
    (buildRecord ⟨"gw-1", "gw", none⟩ "r" 0 "iso"
        ⟨"dev", some 0, none, some ⟨"u", 1, 0, some 0, none, none⟩⟩).txPower = none ∧
    (buildRecord ⟨"gw-1", "gw", none⟩ "r" 0 "iso"
        ⟨"dev", some (-60), none, none⟩).rssi = some (-60) := by
  refine ⟨?_, ?_, ?_⟩
  · exact (C10_falsy_coalescing ⟨"gw-1", "gw", none⟩ "r" 0 "iso"
      ⟨"dev", some 0, none, some ⟨"u", 1, 0, some 0, none, none⟩⟩).1.mpr (.inr rfl)
  · exact (((C10_falsy_coalescing ⟨"gw-1", "gw", none⟩ "r" 0 "iso"
      ⟨"dev", some 0, none, some ⟨"u", 1, 0, some 0, none, none⟩⟩).2.2.1
      ⟨"u", 1, 0, some 0, none, none⟩ rfl).2.2.1).mpr (.inr rfl)
  · exact (C10_falsy_coalescing ⟨"gw-1", "gw", none⟩ "r" 0 "iso"
      ⟨"dev", some (-60), none, none⟩).2.1 (-60) rfl (by decide)
